import Mathlib

/-!
Verification of the LangGraph-Basic repository: a shallow embedding of the
conversation-loop controller of CreateJiraTicketAgent.py and of the retrying
tool executor of nodes.py, with theorems settling the specification claims.

Side effects (remote HTTP calls, the Jira client, the model call, sleeping)
are modelled by passing the outcome of the effect as an explicit argument:
an operation that can raise is a function into `Except String _`, and a
function that "never raises" is total.
-/

namespace LangGraphBasic

/-! ### String machinery: Python `str.lower`, `str.strip` and the `in` operator -/

/-- Python `content.lower()` on the character list of a string (ASCII-relevant part). -/
def lowerChars (s : List Char) : List Char := s.map Char.toLower

/-- `isPrefixList n h` is true when `n` is an initial segment of `h`. -/
def isPrefixList : List Char → List Char → Bool
  | [], _ => true
  | _ :: _, [] => false
  | a :: as, b :: bs => a == b && isPrefixList as bs

/-- Python `needle in hay` on strings: `needle` occurs contiguously in `hay`. -/
def containsSub (needle : List Char) : List Char → Bool
  | [] => isPrefixList needle []
  | c :: cs => isPrefixList needle (c :: cs) || containsSub needle cs

/-- Characters stripped by Python `str.strip()` (the ASCII whitespace set). -/
def isPySpace (c : Char) : Bool :=
  c == ' ' || c == '\t' || c == '\n' || c == '\r' || c == Char.ofNat 11 || c == Char.ofNat 12

/-- Python `s.strip()`: drop leading and trailing whitespace. -/
def pyStrip (s : List Char) : List Char :=
  ((s.dropWhile isPySpace).reverse.dropWhile isPySpace).reverse

/-! ### CreateJiraTicketAgent.py: messages, `should_continue`, the graph wiring -/

/-- The LangChain message kinds used by CreateJiraTicketAgent.py.
`ai` carries the names of the requested tool calls (empty list = no tool
requests); `tool` is a ToolMessage carrying the tool result content. -/
inductive Message where
  | human (content : String)
  | system (content : String)
  | ai (content : String) (toolCalls : List String)
  | tool (content : String)
deriving DecidableEq

/-- The per-message test inside the loop of `should_continue` (lines 246-250):
the message is a ToolMessage and its content contains both "create" and
"issue" case-insensitively. -/
def msgMatches : Message → Bool
  | Message.tool c =>
      containsSub "create".data (lowerChars c.data)
        && containsSub "issue".data (lowerChars c.data)
  | _ => false

/-- The `for message in reversed(messages)` loop of `should_continue`:
return "end" at the first matching message, "continue" when the loop
finishes without a match (the for/else clause). -/
def scanReversed : List Message → String
  | [] => "continue"
  | m :: rest => if msgMatches m then "end" else scanReversed rest

/-- `should_continue` of CreateJiraTicketAgent.py (lines 238-253). -/
def should_continue (messages : List Message) : String :=
  if messages.isEmpty then "continue"
  else scanReversed messages.reverse

/-- The content of the most recent ToolMessage in a history, if any. -/
def firstToolContent : List Message → Option String
  | [] => none
  | Message.tool c :: _ => some c
  | _ :: rest => firstToolContent rest

/-- The most recent ToolResult content of a history. -/
def lastToolContent (ms : List Message) : Option String :=
  firstToolContent ms.reverse

/-- `create_jira_ticket` (lines 174-205): the remote call `jira.create_issue`
is modelled by its outcome `createIssue` (ok = issue key, error = exception
text). On success return "Issue created: <url>"; on any exception return the
soft-failure string embedding the exception text. The function is total:
it never raises. -/
def create_jira_ticket (jira_server : String) (createIssue : Except String String) : String :=
  match createIssue with
  | Except.ok key => "Issue created: " ++ jira_server ++ "/browse/" ++ key
  | Except.error e => "Failed to create issue: " ++ e

/-- The nodes of the compiled agent graph: "our_agent", "tools", and END. -/
inductive NodeId where
  | ourAgent
  | tools
  | terminal
deriving DecidableEq

/-- The edge structure of the compiled graph (lines 256-274):
an unconditional edge our_agent -> tools, and a conditional edge from tools
routed by `should_continue` ("continue" -> our_agent, "end" -> END). -/
def nextNode : NodeId → List Message → NodeId
  | NodeId.ourAgent, _ => NodeId.tools
  | NodeId.tools, msgs =>
      if should_continue msgs = "end" then NodeId.terminal else NodeId.ourAgent
  | NodeId.terminal, _ => NodeId.terminal

/-! ### nodes.py: input schema, error handler, executor, tools -/

/-- The raw argument dictionary passed to `MyNodeAdapter.invoke`; `none`
for an optional field means the key is absent and the pydantic default
applies. -/
structure RawInput where
  query : String
  api_url : Option String := none
  max_retries : Option Nat := none
deriving DecidableEq

/-- The validated/coerced `NodeInput` pydantic model (lines 22-32). -/
structure NodeInput where
  query : String
  api_url : String
  max_retries : Nat
deriving DecidableEq

/-- The `validate_query` field validator (lines 27-32): reject a query that
is empty after stripping whitespace, otherwise return the value unchanged. -/
def validate_query (v : String) : Except String String :=
  if (pyStrip v.data).isEmpty then Except.error "Query cannot be empty"
  else Except.ok v

/-- Constructing `NodeInput(**input)`: run the field validator on `query`
and fill the defaults of the optional fields. -/
def parseNodeInput (raw : RawInput) : Except String NodeInput :=
  match validate_query raw.query with
  | Except.error e => Except.error e
  | Except.ok q =>
      Except.ok
        { query := q
          api_url := raw.api_url.getD "https://api.example.com/data"
          max_retries := raw.max_retries.getD 3 }

/-- `error_handler` (lines 44-50): with retries left it sleeps and returns
None (signal retry, modelled by `none`); with none left it raises the mapped
error (modelled by `some mappedMessage`). -/
def error_handler (error : String) (retries_left : Nat) : Option String :=
  if retries_left > 0 then none
  else some ("Mapped error: " ++ error)

/-- The output wrapper `NodeOutput` (lines 35-37). -/
structure NodeOutput (D : Type) where
  result : D
  partials : List String
deriving DecidableEq

/-- The `while retries > 0` loop of `MyNodeAdapter.invoke` (lines 96-108).
`op i` is the outcome of the i-th sandboxed attempt of the underlying
operation (ok = its result, error = the exception text, timeouts included).
Returns the final outcome together with the number of attempts performed.
When the budget is exhausted the loop falls through to
`raise LangChainException("Max retries exceeded")`. -/
def invokeLoop {D : Type} (op : Nat → Except String D) : Nat → Nat → Except String D × Nat
  | _, 0 => (Except.error "Max retries exceeded", 0)
  | i, r + 1 =>
      match op i with
      | Except.ok d => (Except.ok d, 1)
      | Except.error e =>
          match error_handler e (r + 1) with
          | some mapped => (Except.error mapped, 1)
          | none =>
              let rest := invokeLoop op (i + 1) r
              (rest.1, rest.2 + 1)

namespace MyNodeAdapter

/-- `MyNodeAdapter.invoke` (lines 85-108): validate and coerce the raw
arguments (a pydantic failure is re-raised as
"Param validation failed: ..." with zero attempts of the operation), then
run the retry loop with budget `max_retries`. On success the raw result is
wrapped in `NodeOutput` with the simulated partial entry. Returns the
outcome and the number of attempts of the underlying operation. -/
def invoke {D : Type} (input : RawInput) (op : NodeInput → Nat → Except String D) :
    Except String (NodeOutput D) × Nat :=
  match parseNodeInput input with
  | Except.error e => (Except.error ("Param validation failed: " ++ e), 0)
  | Except.ok parsed =>
      let r := invokeLoop (op parsed) 0 parsed.max_retries
      (r.1.map (fun d => { result := d, partials := ["Processing complete"] }), r.2)

/-- A chunk yielded by `MyNodeAdapter.stream`. -/
inductive StreamChunk where
  | progress (s : String)
  | finalOut (s : String)
deriving DecidableEq

/-- `MyNodeAdapter.stream` (lines 110-119): validate the input (a pydantic
failure propagates directly, before any attempt), yield the progress chunks,
then call the underlying operation exactly once with no sandbox and no
retry; an exception from the operation propagates to the caller after the
progress chunks. Returns (chunks yielded, final outcome, number of attempts
of the underlying operation). -/
def stream (input : RawInput) (op : NodeInput → Except String String) :
    List StreamChunk × Except String Unit × Nat :=
  match parseNodeInput input with
  | Except.error e => ([], Except.error e, 0)
  | Except.ok parsed =>
      let pre := [StreamChunk.progress "Starting extraction...",
                  StreamChunk.progress "Chunk 1",
                  StreamChunk.progress "Chunk 2",
                  StreamChunk.progress "Chunk 3"]
      match op parsed with
      | Except.error e => (pre, Except.error e, 1)
      | Except.ok d => (pre ++ [StreamChunk.finalOut d], Except.ok (), 1)

end MyNodeAdapter

/-- An HTTP response as seen by `data_extractor_tool`. -/
structure HttpResponse where
  status : Nat
  body : String
deriving DecidableEq

/-- `response.raise_for_status()`: raise on an HTTP error status (4xx/5xx). -/
def raise_for_status (r : HttpResponse) : Except String Unit :=
  if 400 ≤ r.status then Except.error ("HTTP error " ++ toString r.status)
  else Except.ok ()

/-- `data_extractor_tool` (lines 53-65): `outcome` is the result of
`requests.get` (error = a RequestException such as a timeout). On a
response, `raise_for_status` raises on HTTP errors; the except clause
catches the RequestException, logs, and re-raises it unchanged. On success
return `{"data": body}` (modelled by the body). -/
def data_extractor_tool (outcome : Except String HttpResponse) : Except String String :=
  match outcome with
  | Except.error e => Except.error e
  | Except.ok r =>
      match raise_for_status r with
      | Except.error e => Except.error e
      | Except.ok _ => Except.ok r.body

/-! ### Helper lemmas -/

theorem isPrefixList_append (n : List Char) :
    ∀ p q, isPrefixList n p = true → isPrefixList n (p ++ q) = true := by
  induction n with
  | nil => intro p q _; rfl
  | cons a as ih =>
    intro p q h
    cases p with
    | nil => simp [isPrefixList] at h
    | cons b bs =>
      simp only [List.cons_append, isPrefixList, Bool.and_eq_true] at h ⊢
      exact ⟨h.1, ih bs q h.2⟩

theorem containsSub_nil (q : List Char) : containsSub [] q = true := by
  cases q with
  | nil => rfl
  | cons c cs => simp [containsSub, isPrefixList]

theorem containsSub_append_left (n : List Char) :
    ∀ p q, containsSub n p = true → containsSub n (p ++ q) = true := by
  intro p
  induction p with
  | nil =>
    intro q h
    cases n with
    | nil => simpa using containsSub_nil q
    | cons a as => simp [containsSub, isPrefixList] at h
  | cons c cs ih =>
    intro q h
    simp only [containsSub, Bool.or_eq_true] at h
    rcases h with h | h
    · simp only [List.cons_append, containsSub, Bool.or_eq_true]
      exact Or.inl (isPrefixList_append n (c :: cs) q h)
    · simp only [List.cons_append, containsSub, Bool.or_eq_true]
      exact Or.inr (ih q h)

theorem containsSub_append_right (n : List Char) :
    ∀ p q, containsSub n q = true → containsSub n (p ++ q) = true := by
  intro p
  induction p with
  | nil => intro q h; simpa using h
  | cons c cs ih =>
    intro q h
    simp only [List.cons_append, containsSub, Bool.or_eq_true]
    exact Or.inr (ih q h)

theorem isPrefixList_refl (n : List Char) : isPrefixList n n = true := by
  induction n with
  | nil => rfl
  | cons a as ih => simp [isPrefixList, ih]

theorem containsSub_self (n : List Char) : containsSub n n = true := by
  cases n with
  | nil => rfl
  | cons a as => simp [containsSub, isPrefixList_refl]

theorem scanReversed_eq_continue (l : List Message) :
    scanReversed l = "continue" ↔ ∀ m ∈ l, msgMatches m = false := by
  induction l with
  | nil => simp [scanReversed]
  | cons m rest ih =>
    by_cases hm : msgMatches m = true
    · simp [scanReversed, hm]
    · simp only [Bool.not_eq_true] at hm
      simp [scanReversed, hm, ih]

theorem should_continue_eq_continue (ms : List Message) :
    should_continue ms = "continue" ↔ ∀ m ∈ ms, msgMatches m = false := by
  unfold should_continue
  by_cases he : ms.isEmpty
  · rw [if_pos he]
    rw [List.isEmpty_iff] at he
    subst he
    simp
  · rw [if_neg he]
    rw [scanReversed_eq_continue]
    constructor
    · intro h m hm
      exact h m (List.mem_reverse.mpr hm)
    · intro h m hm
      exact h m (List.mem_reverse.mp hm)

theorem should_continue_append_match (ms : List Message) (m : Message)
    (h : msgMatches m = true) : should_continue (ms ++ [m]) = "end" := by
  unfold should_continue
  rw [if_neg (by simp)]
  rw [List.reverse_append, List.reverse_singleton]
  simp [scanReversed, h]

theorem invokeLoop_all_errors {D : Type} (op : Nat → Except String D) (errs : Nat → String)
    (hop : ∀ j, op j = Except.error (errs j)) :
    ∀ r i, invokeLoop op i r = (Except.error "Max retries exceeded", r) := by
  intro r
  induction r with
  | zero => intro i; rfl
  | succ n ih =>
    intro i
    simp only [invokeLoop, hop i, error_handler, Nat.succ_pos, if_pos, ih (i + 1)]

/-! ### Claim theorems -/

/-- Claim C1, counterexample: with retry budget 2 and an operation that
always times out, `invoke` does perform exactly 2 attempts and fail
terminally, but the terminal error is the fixed string
"Max retries exceeded", which does not carry the underlying error text:
the claim that RetriesExhausted carries the last underlying error is false. -/
theorem C1_counterexample :
    MyNodeAdapter.invoke { query := "q", api_url := none, max_retries := some 2 }
        (fun _ _ => (Except.error "Execution timed out (sandbox limit)" : Except String String))
      = (Except.error "Max retries exceeded", 2)
    ∧ containsSub "Execution timed out (sandbox limit)".data "Max retries exceeded".data = false :=
  ⟨by rfl, by decide⟩

/-- Claim C1 (amended): for every operation that always fails and every
retry budget N > 0, `MyNodeAdapter.invoke` performs exactly N attempts of
the underlying operation and then signals a terminal failure whose message
is the fixed string "Max retries exceeded" — it does not carry the last
underlying error. -/
theorem C1_retries_exhausted_generic_error {D : Type} (raw : RawInput) (parsed : NodeInput)
    (op : NodeInput → Nat → Except String D) (errs : Nat → String)
    (hparse : parseNodeInput raw = Except.ok parsed)
    (_hN : 0 < parsed.max_retries)
    (hop : ∀ i, op parsed i = Except.error (errs i)) :
    MyNodeAdapter.invoke raw op = (Except.error "Max retries exceeded", parsed.max_retries) := by
  unfold MyNodeAdapter.invoke
  rw [hparse]
  simp only [invokeLoop_all_errors (op parsed) errs hop parsed.max_retries 0]
  rfl

/-- Witness for C1: budget 2 with an always-failing operation. -/
theorem C1_retries_exhausted_generic_error_witness :
    parseNodeInput { query := "q", api_url := none, max_retries := some 2 }
      = Except.ok { query := "q", api_url := "https://api.example.com/data", max_retries := 2 }
    ∧ MyNodeAdapter.invoke { query := "q", api_url := none, max_retries := some 2 }
        (fun _ _ => (Except.error "boom" : Except String String))
      = (Except.error "Max retries exceeded", 2) :=
  ⟨by rfl,
   C1_retries_exhausted_generic_error
     { query := "q", api_url := none, max_retries := some 2 }
     { query := "q", api_url := "https://api.example.com/data", max_retries := 2 }
     (fun _ _ => Except.error "boom") (fun _ => "boom") (by rfl) (by decide) (fun _ => rfl)⟩

/-- Claim C2: for every history ending in a ToolResult whose content
contains both "create" and "issue" case-insensitively, `should_continue`
returns "end", and the conditional edge from the tools node goes to END. -/
theorem C2_matching_last_tool_result_ends (ms : List Message) (c : String)
    (h1 : containsSub "create".data (lowerChars c.data) = true)
    (h2 : containsSub "issue".data (lowerChars c.data) = true) :
    should_continue (ms ++ [Message.tool c]) = "end"
    ∧ nextNode NodeId.tools (ms ++ [Message.tool c]) = NodeId.terminal := by
  have hm : msgMatches (Message.tool c) = true := by
    simp [msgMatches, h1, h2]
  have h := should_continue_append_match ms _ hm
  exact ⟨h, by simp [nextNode, h]⟩

/-- Witness for C2: a one-element history ending in a matching ToolResult. -/
theorem C2_matching_last_tool_result_ends_witness :
    containsSub "create".data (lowerChars "Issue created: srv/browse/K-1".data) = true
    ∧ containsSub "issue".data (lowerChars "Issue created: srv/browse/K-1".data) = true
    ∧ should_continue [Message.tool "Issue created: srv/browse/K-1"] = "end"
    ∧ nextNode NodeId.tools [Message.tool "Issue created: srv/browse/K-1"] = NodeId.terminal :=
  have h := C2_matching_last_tool_result_ends [] "Issue created: srv/browse/K-1"
    (by decide) (by decide)
  ⟨by decide, by decide, h.1, h.2⟩

/-- Claim C3, counterexample: a history whose most recent ToolResult
("The issue has been updated! ...") does not contain both keywords, yet
`should_continue` returns "end" because an earlier ToolResult
("Issue created: ...") matches: the predicate is not over the most recent
ToolResult only. -/
theorem C3_counterexample :
    lastToolContent
        [Message.tool "Issue created: srv/browse/K-1",
         Message.tool "The issue has been updated! The current issue is: draft"]
      = some "The issue has been updated! The current issue is: draft"
    ∧ (containsSub "create".data
          (lowerChars "The issue has been updated! The current issue is: draft".data)
        && containsSub "issue".data
          (lowerChars "The issue has been updated! The current issue is: draft".data)) = false
    ∧ should_continue
        [Message.tool "Issue created: srv/browse/K-1",
         Message.tool "The issue has been updated! The current issue is: draft"]
      = "end" :=
  ⟨by rfl, by decide, by decide⟩

/-- Claim C3 (amended): the termination predicate scans the entire history,
not just the most recent ToolResult: `should_continue` returns "continue"
exactly when no message in the history is a ToolResult containing both
"create" and "issue" case-insensitively; a matching ToolResult anywhere in
the history yields "end". -/
theorem C3_predicate_scans_entire_history (ms : List Message) :
    should_continue ms = "continue" ↔ ∀ m ∈ ms, msgMatches m = false :=
  should_continue_eq_continue ms

/-- Claim C4: a raw argument dictionary whose query fails validation makes
`MyNodeAdapter.invoke` signal the validation failure immediately with zero
attempts of the underlying operation: no retry budget is consumed. -/
theorem C4_invalid_arguments_no_attempts {D : Type} (raw : RawInput) (e : String)
    (op : NodeInput → Nat → Except String D)
    (hval : validate_query raw.query = Except.error e) :
    MyNodeAdapter.invoke raw op = (Except.error ("Param validation failed: " ++ e), 0) := by
  unfold MyNodeAdapter.invoke parseNodeInput
  rw [hval]

/-- Witness for C4: a whitespace-only query. -/
theorem C4_invalid_arguments_no_attempts_witness :
    validate_query "   " = Except.error "Query cannot be empty"
    ∧ MyNodeAdapter.invoke { query := "   " }
        (fun _ _ => (Except.ok "d" : Except String String))
      = (Except.error ("Param validation failed: " ++ "Query cannot be empty"), 0) :=
  ⟨by rfl,
   C4_invalid_arguments_no_attempts { query := "   " } "Query cannot be empty"
     (fun _ _ => Except.ok "d") (by rfl)⟩

/-- Claim C5: on any remote-call exception while creating the issue,
`create_jira_ticket` returns the soft-failure string embedding the
exception text; being a total function into String, it never raises. -/
theorem C5_ticket_soft_failure (server e : String) :
    create_jira_ticket server (Except.error e) = "Failed to create issue: " ++ e
    ∧ containsSub e.data (create_jira_ticket server (Except.error e)).data = true := by
  constructor
  · rfl
  · show containsSub e.data ("Failed to create issue: " ++ e).data = true
    have hd : ("Failed to create issue: " ++ e).data
        = "Failed to create issue: ".data ++ e.data := rfl
    rw [hd]
    exact containsSub_append_right e.data "Failed to create issue: ".data e.data
      (containsSub_self e.data)

/-- Claim C6: an HTTP error response makes `data_extractor_tool` raise
(return an error) rather than soft-fail, and that error propagates into the
retry loop of `MyNodeAdapter.invoke`, which re-attempts the call exactly
`max_retries` times before failing terminally. -/
theorem C6_http_error_propagates_and_is_retried (r : HttpResponse) (N : Nat)
    (hstatus : 400 ≤ r.status) :
    data_extractor_tool (Except.ok r) = Except.error ("HTTP error " ++ toString r.status)
    ∧ MyNodeAdapter.invoke { query := "q", api_url := none, max_retries := some N }
        (fun _ _ => data_extractor_tool (Except.ok r))
      = (Except.error "Max retries exceeded", N) := by
  have htool : data_extractor_tool (Except.ok r)
      = Except.error ("HTTP error " ++ toString r.status) := by
    simp [data_extractor_tool, raise_for_status, hstatus]
  refine ⟨htool, ?_⟩
  have hp : parseNodeInput { query := "q", api_url := none, max_retries := some N }
      = Except.ok { query := "q", api_url := "https://api.example.com/data", max_retries := N } := rfl
  unfold MyNodeAdapter.invoke
  rw [hp]
  simp only [invokeLoop_all_errors _ (fun _ => "HTTP error " ++ toString r.status)
    (fun _ => htool) N 0]
  rfl

/-- Witness for C6: an HTTP 500 with retry budget 3. -/
theorem C6_http_error_propagates_and_is_retried_witness :
    data_extractor_tool (Except.ok ⟨500, "body"⟩)
      = Except.error ("HTTP error " ++ toString (500 : Nat))
    ∧ MyNodeAdapter.invoke { query := "q", api_url := none, max_retries := some 3 }
        (fun _ _ => data_extractor_tool (Except.ok ⟨500, "body"⟩))
      = (Except.error "Max retries exceeded", 3) :=
  C6_http_error_propagates_and_is_retried ⟨500, "body"⟩ 3 (by decide)

/-- Claim C7, counterexample: a state whose model response contains no tool
requests does not transition to Terminated: the edge out of the model node
is unconditionally to the tools node, and from there the run returns to the
model node when no ToolResult in history matches the completion signature. -/
theorem C7_counterexample :
    nextNode NodeId.ourAgent
        [Message.human "hi", Message.ai "Here is the final answer." []] = NodeId.tools
    ∧ nextNode NodeId.tools
        [Message.human "hi", Message.ai "Here is the final answer." []] = NodeId.ourAgent
    ∧ NodeId.tools ≠ NodeId.terminal
    ∧ NodeId.ourAgent ≠ NodeId.terminal := by
  decide

/-- Claim C7 (amended): there is no "final answer" policy: the model node
routes unconditionally to the tools node even when the model response
carries no tool requests, and the run reaches END exactly when
`should_continue` over the history returns "end". -/
theorem C7_no_final_answer_policy (ms : List Message) (content : String) :
    nextNode NodeId.ourAgent (ms ++ [Message.ai content []]) = NodeId.tools
    ∧ (nextNode NodeId.tools (ms ++ [Message.ai content []]) = NodeId.terminal
        ↔ should_continue (ms ++ [Message.ai content []]) = "end") := by
  refine ⟨rfl, ?_⟩
  by_cases h : should_continue (ms ++ [Message.ai content []]) = "end"
  · simp [nextNode, h]
  · simp [nextNode, h]

/-- Claim C8: validation is idempotent: if `validate_query` accepts `x`
producing `y`, then validating `y` gives the same result as validating
`x` (the validator returns the accepted value unchanged). -/
theorem C8_validate_idempotent (x y : String)
    (h : validate_query x = Except.ok y) :
    validate_query y = validate_query x := by
  by_cases hx : (pyStrip x.data).isEmpty
  · simp [validate_query, hx] at h
  · simp only [validate_query, hx, if_neg, Bool.false_eq_true, not_false_eq_true,
      Except.ok.injEq] at h
    subst h
    rfl

/-- Witness for C8: the accepted query "hello". -/
theorem C8_validate_idempotent_witness :
    validate_query "hello" = Except.ok "hello"
    ∧ validate_query "hello" = validate_query "hello" :=
  ⟨by rfl, C8_validate_idempotent "hello" "hello" (by rfl)⟩

/-- Claim C9: the soft-failure string of `create_jira_ticket` itself
contains both "create" and "issue" case-insensitively, so a history whose
most recent ToolResult is that failure message makes `should_continue`
return "end": a failed creation terminates the loop like a successful one. -/
theorem C9_failed_creation_terminates (ms : List Message) (server e : String) :
    should_continue (ms ++ [Message.tool (create_jira_ticket server (Except.error e))]) = "end" := by
  apply should_continue_append_match
  show msgMatches (Message.tool ("Failed to create issue: " ++ e)) = true
  have hd : lowerChars ("Failed to create issue: " ++ e).data
      = lowerChars "Failed to create issue: ".data ++ lowerChars e.data := by
    show lowerChars ("Failed to create issue: ".data ++ e.data)
      = lowerChars "Failed to create issue: ".data ++ lowerChars e.data
    simp [lowerChars]
  simp only [msgMatches, hd, Bool.and_eq_true]
  constructor
  · exact containsSub_append_left _ _ _ (by decide)
  · exact containsSub_append_left _ _ _ (by decide)

/-- Claim C10, counterexample: for an input failing validation,
`MyNodeAdapter.stream` performs zero attempts of the underlying operation
(the validation failure propagates before any attempt), refuting "for every
input, stream calls the underlying operation exactly once". -/
theorem C10_counterexample :
    MyNodeAdapter.stream { query := "" } (fun _ => Except.error "boom")
      = ([], Except.error "Query cannot be empty", 0)
    ∧ (0 : Nat) ≠ 1 :=
  ⟨by rfl, by decide⟩

/-- Claim C10 (amended): for every input that passes validation,
`MyNodeAdapter.stream` calls the underlying operation exactly once — no
sandbox, no retries — and an exception raised by the operation propagates
to the caller. -/
theorem C10_stream_single_attempt (raw : RawInput) (parsed : NodeInput)
    (op : NodeInput → Except String String)
    (hparse : parseNodeInput raw = Except.ok parsed) :
    (MyNodeAdapter.stream raw op).2.2 = 1
    ∧ ∀ e, op parsed = Except.error e →
        (MyNodeAdapter.stream raw op).2.1 = Except.error e := by
  unfold MyNodeAdapter.stream
  rw [hparse]
  constructor
  · cases hop : op parsed <;> simp [hop]
  · intro e he
    simp [he]

/-- Witness for C10: a valid query with a failing operation. -/
theorem C10_stream_single_attempt_witness :
    (MyNodeAdapter.stream { query := "q" } (fun _ => Except.error "boom")).2.2 = 1
    ∧ (MyNodeAdapter.stream { query := "q" } (fun _ => Except.error "boom")).2.1
      = Except.error "boom" :=
  have h := C10_stream_single_attempt { query := "q" }
    { query := "q", api_url := "https://api.example.com/data", max_retries := 3 }
    (fun _ => Except.error "boom") (by rfl)
  ⟨h.1, h.2 "boom" (by rfl)⟩

end LangGraphBasic
